import Mathlib

set_option maxRecDepth 10000
set_option exponentiation.threshold 5000

/-!
Verification of the TikTok batch-enrichment controller
(`tiktokurl_extraction.py`) against its natural-language specification.

The Python module is shallowly embedded:

* a spreadsheet row becomes the structure `Row`; a cell that pandas would
  report as `NaN` is `none`, a real cell value is `some v`;
* the external collaborators (Selenium navigation, the followers element
  lookup, `yt_dlp`, `ffmpeg`, Whisper, `DataFrame.to_excel`) are an
  environment `Env` of oracles returning `Except`-style outcomes, so a
  Python exception is an `Except.error` carrying the message;
* the transient audio work area is a finite set of video identifiers,
  carried as a `List String`; `os.remove` deletes the identifier;
* `_convert_count_to_number` is embedded together with a model of Python's
  `float()` string conversion (`pyFloatOfChars` for the literal grammar —
  sign, `inf`/`infinity`/`nan`, underscored digit groups, exponent —
  and `roundDouble` for the correctly-rounded IEEE binary64 conversion with
  overflow to infinity), of the IEEE float multiplication by the suffix
  multiplier (`floatTimesIntToInt`, again correctly rounded with silent
  overflow to infinity), and of `int()` truncation toward zero
  (`truncDyadic`), `int(inf)` being the uncaught `OverflowError` that
  `except (ValueError, IndexError)` does not catch.  All arithmetic is
  exact on `Nat`/`Int` (dyadic values `sig * 2^p`), so the model is
  kernel-computable.  Character-level operations (`strip`, `upper`) are
  exact on ASCII; the totality theorem for the parser is scoped to ASCII
  input accordingly, Python's Unicode-aware `upper()` being out of the
  model (e.g. dotless ı uppercases to I in Python).
-/

/-- One spreadsheet row of the dataset, after `process_excel_data` has made
sure the eight derived columns exist (source lines 212-225).  `none` models
a pandas `NaN` cell. -/
structure Row where
  url_video : String
  tiktok_username : Option String
  followers_count : Option Int
  video_likes : Option Int
  video_views : Option Int
  video_description : Option String
  publish_date : Option String
  transcription : Option String
  extraction_error : Option String
deriving DecidableEq, Repr

/-- `pd.isna(v) or v == ''` for a string-valued cell. -/
def strMissing (v : Option String) : Bool := v.isNone || v == some ""

/-- `pd.isna(v) or v == 0` for an integer-valued cell. -/
def intMissing (v : Option Int) : Bool := v.isNone || v == some 0

/-- Source line 232: `pd.isna(row['tiktok_username']) or row['tiktok_username'] == ''`. -/
def needs_username (r : Row) : Bool := strMissing r.tiktok_username

/-- Source line 233. -/
def needs_followers (r : Row) : Bool := intMissing r.followers_count

/-- Source lines 234-237: any of the four video-metadata cells missing or
zero/empty. -/
def needs_video_info (r : Row) : Bool :=
  intMissing r.video_likes || intMissing r.video_views ||
  strMissing r.video_description || strMissing r.publish_date

/-- Source line 238. -/
def needs_transcription (r : Row) : Bool := strMissing r.transcription

/-- Source line 240: `any([needs_username, needs_followers, needs_video_info,
needs_transcription])`. -/
def needsAny (r : Row) : Bool :=
  needs_username r || needs_followers r || needs_video_info r || needs_transcription r

/-- The four field groups of the specification's resolver. -/
inductive FieldGroup
  | identity
  | profile_stats
  | video_metadata
  | transcript
deriving DecidableEq, Repr

/-- The resolver's needed set, read off the four `needs_*` flags computed at
source lines 232-238. -/
def needed (r : Row) : List FieldGroup :=
  (if needs_username r then [FieldGroup.identity] else []) ++
  (if needs_followers r then [FieldGroup.profile_stats] else []) ++
  (if needs_video_info r then [FieldGroup.video_metadata] else []) ++
  (if needs_transcription r then [FieldGroup.transcript] else [])

/-! ### Model of Python string/number primitives used by
`_convert_count_to_number` (source lines 120-134). -/

/-- The whitespace characters removed by `str.strip()` (ASCII portion). -/
def pyIsSpace (c : Char) : Bool :=
  c = ' ' || c = '\t' || c = '\n' || c = '\x0d' || c = '\x0b' || c = '\x0c'

/-- `str.strip()` on a character list. -/
def stripChars (l : List Char) : List Char :=
  ((l.dropWhile pyIsSpace).reverse.dropWhile pyIsSpace).reverse

/-- `str.upper()` on one ASCII character. -/
def upperChar (c : Char) : Char :=
  if 'a' ≤ c && c ≤ 'z' then Char.ofNat (c.toNat - 32) else c

/-- Is `c` an ASCII decimal digit? -/
def isDigitChar (c : Char) : Bool := '0' ≤ c && c ≤ '9'

/-- Numeric value of an all-digit character list (`0` for the empty list;
callers enforce non-emptiness where Python requires a digit). -/
def digitsToNat (l : List Char) : Nat :=
  l.foldl (fun acc c => acc * 10 + (c.toNat - 48)) 0

/-- Split a character list at every occurrence of `sep`, keeping empty
pieces, like Python's `str.split(sep)`. -/
def splitOnChar (sep : Char) (l : List Char) : List (List Char) :=
  l.foldr
    (fun c acc =>
      if c = sep then [] :: acc
      else
        match acc with
        | [] => [[c]]
        | h :: t => (c :: h) :: t)
    [[]]

/-- Outcome of recognising a Python `float()` string: a finite literal kept
EXACT as `(-1)^neg * m * 10^s` (its rounding to binary64, including possible
overflow to infinity, happens later in `roundDouble`), a spelled infinity,
or a NaN.  The sign of an infinity is irrelevant to the source (both make
`int()` raise `OverflowError`), so it is not kept. -/
inductive PyFloat
  | finite (neg : Bool) (m : Nat) (s : Int)
  | inf
  | nan
deriving DecidableEq, Repr

/-- A Python digit group with optional single underscores strictly between
digits (grammar `digit (["_"] digit)*`, PEP 515): every character is a digit
or `_`, no leading/trailing `_`, no `__`.  The empty group is accepted here;
callers enforce non-emptiness where Python requires a digit. -/
def validDigitGroup (l : List Char) : Bool :=
  l.all (fun c => isDigitChar c || c = '_') &&
  !(l.head? == some '_') && !(l.getLast? == some '_') &&
  (l.zip l.tail).all (fun p => !(p.1 = '_' && p.2 = '_'))

/-- The digits of a digit group, underscores removed. -/
def groupDigits (l : List Char) : List Char := l.filter (fun c => c != '_')

/-- Mantissa of a float literal: `digits`, `digits.`, `.digits` or
`digits.digits` (underscored digit groups allowed), at least one digit
overall.  Returns the digit string's value together with the number of
fractional digits. -/
def parseMantissa (m : List Char) : Option (Nat × Nat) :=
  match splitOnChar '.' m with
  | [ip] =>
      if ip ≠ [] && validDigitGroup ip then some (digitsToNat (groupDigits ip), 0)
      else none
  | [ip, fp] =>
      if (ip ≠ [] || fp ≠ []) && validDigitGroup ip && validDigitGroup fp then
        some
          (digitsToNat (groupDigits ip) * 10 ^ (groupDigits fp).length +
             digitsToNat (groupDigits fp),
           (groupDigits fp).length)
      else none
  | _ => none

/-- Exponent of a float literal: optional sign, then a non-empty digit
group. -/
def parseExponent (l : List Char) : Option Int :=
  let (neg, rest) :=
    match l with
    | '+' :: r => (false, r)
    | '-' :: r => (true, r)
    | r => (false, r)
  if rest ≠ [] && validDigitGroup rest then
    some
      (if neg then -(digitsToNat (groupDigits rest) : Int)
       else (digitsToNat (groupDigits rest) : Int))
  else none

/-- Decimal part of a float literal, with optional `E`-exponent, as a pair
`(m, s)` of value `m * 10^s`.  The caller always passes uppercased text,
matching `count_str.strip().upper()`. -/
def parsePyDec (l : List Char) : Option (Nat × Int) :=
  match splitOnChar 'E' l with
  | [mt] => (parseMantissa mt).map fun p => (p.1, -(p.2 : Int))
  | [mt, ex] =>
      match parseMantissa mt, parseExponent ex with
      | some p, some e => some (p.1, e - (p.2 : Int))
      | _, _ => none
  | _ => none

/-- Python `float()` literal recognition on the uppercased text reaching it
(`float()` itself also strips surrounding whitespace): optional sign, then
`INF`/`INFINITY`, `NAN`, or a decimal literal kept EXACT (pre-rounding);
`none` models `ValueError`.  The rounding of a finite literal to binary64 —
including its possible overflow to infinity — happens in `roundDouble`
below, exactly as in CPython's correctly-rounded strtod. -/
def pyFloatOfChars (l : List Char) : Option PyFloat :=
  let (neg, rest) :=
    match stripChars l with
    | '+' :: r => (false, r)
    | '-' :: r => (true, r)
    | r => (false, r)
  if rest = "INF".data || rest = "INFINITY".data then some PyFloat.inf
  else if rest = "NAN".data then some PyFloat.nan
  else (parsePyDec rest).map fun p => PyFloat.finite neg p.1 p.2

/-- Python `int()` on a string: surrounding whitespace stripped, optional
sign, then a non-empty digit group; `none` models `ValueError`. -/
def pyIntOfChars (l : List Char) : Option Int :=
  let (neg, rest) :=
    match stripChars l with
    | '+' :: r => (false, r)
    | '-' :: r => (true, r)
    | r => (false, r)
  if rest ≠ [] && validDigitGroup rest then
    some
      (if neg then -(digitsToNat (groupDigits rest) : Int)
       else (digitsToNat (groupDigits rest) : Int))
  else none

/-! #### Exact IEEE-754 binary64 rounding.
`float(<literal>)` and the float multiplication of source line 131 are both
correctly rounded (round to nearest, ties to even) with overflow to
infinity; `int()` of an infinity raises `OverflowError`.  The rounding is
modelled exactly on non-negative rationals `a / b`. -/

/-- Fuel-driven `⌊log2⌋` (structural recursion, so it reduces in the
kernel). -/
def log2Aux : Nat → Nat → Nat
  | 0, _ => 0
  | fuel + 1, n => if 2 ≤ n then log2Aux fuel (n / 2) + 1 else 0

/-- `⌊log2 n⌋` for `n ≥ 1` (and `0` at `0`). -/
def natLog2 (n : Nat) : Nat := log2Aux n n

/-- Exact `⌊log2 (a / b)⌋` of a positive rational `a / b`.  For `a ≥ b`,
with `t = a / b` rounded down and `k = ⌊log2 t⌋` one has
`2^k ≤ t ≤ a/b < t + 1 ≤ 2^(k+1)`, so the answer is `k`; for `a < b` the
same bracketing applied to `b / a` gives `-k` when `b = a * 2^k` exactly and
`-(k+1)` otherwise. -/
def floorLog2 (a b : Nat) : Int :=
  if b ≤ a then (natLog2 (a / b) : Int)
  else
    let k := natLog2 (b / a)
    if b = a * 2 ^ k then -(k : Int) else -((k : Int) + 1)

/-- Round `n / d` to the nearest integer, ties to even. -/
def roundHalfEven (n d : Nat) : Nat :=
  let q := n / d
  let r := n % d
  if 2 * r < d then q
  else if d < 2 * r then q + 1
  else if q % 2 = 0 then q else q + 1

/-- Correctly round the non-negative rational `a / b` (`b ≠ 0`) to an IEEE
binary64 magnitude (round to nearest, ties to even), returned as the exact
dyadic value `sig * 2^p`; `none` models overflow to `+inf` (rounded
magnitude `≥ 2^1024`, so e.g. the tie at `2^1024 - 2^970` rounds up and
overflows, as in IEEE).  Subnormals are rounded at the fixed granularity
`2^-1074`. -/
def roundDouble (a b : Nat) : Option (Nat × Int) :=
  if a = 0 then some (0, 0)
  else
    let e := floorLog2 a b
    let p : Int := max (e - 52) (-1074)
    let sig :=
      if 0 ≤ p then roundHalfEven a (b * 2 ^ p.toNat)
      else roundHalfEven (a * 2 ^ (-p).toNat) b
    let overflow : Bool :=
      if 0 ≤ p then decide (2 ^ 1024 ≤ sig * 2 ^ p.toNat)
      else decide (2 ^ 1024 * 2 ^ (-p).toNat ≤ sig)
    if overflow then none else some (sig, p)

/-- The exact value of the parsed literal magnitude `m * 10^s` as a
fraction. -/
def decToFraction (m : Nat) (s : Int) : Nat × Nat :=
  if 0 ≤ s then (m * 10 ^ s.toNat, 1) else (m, 10 ^ (-s).toNat)

/-- Exact product of the dyadic magnitude `sig * 2^p` and the integer `k`,
as a fraction. -/
def dyadicMulNat (sig : Nat) (p : Int) (k : Nat) : Nat × Nat :=
  if 0 ≤ p then (sig * k * 2 ^ p.toNat, 1) else (sig * k, 2 ^ (-p).toNat)

/-- Truncation toward zero of the dyadic magnitude: Python `int()` on a
non-negative finite float. -/
def truncDyadic (sig : Nat) (p : Int) : Nat :=
  if 0 ≤ p then sig * 2 ^ p.toNat else sig / 2 ^ (-p).toNat

/-- `int(float(<literal>) * mult)` for the finite literal
`(-1)^neg * m * 10^s` (source lines 130-131): the literal is correctly
rounded to binary64 (a literal too large for a double overflows to `inf`,
as CPython's strtod does), the product with the exactly-representable
multiplier is rounded again (one IEEE multiplication — CPython float
multiplication silently produces `inf` on overflow), and `int()` truncates
toward zero.  `none` models the uncaught `OverflowError` that `int()`
raises on an infinite value; the sign of the infinity is irrelevant to that
outcome. -/
def floatTimesIntToInt (neg : Bool) (m : Nat) (s : Int) (mult : Nat) : Option Int :=
  let (a, b) := decToFraction m s
  match roundDouble a b with
  | none => none
  | some (sig1, p1) =>
    let (a2, b2) := dyadicMulNat sig1 p1 mult
    match roundDouble a2 b2 with
    | none => none
    | some (sig2, p2) =>
        let mag := truncDyadic sig2 p2
        some (if neg then -(mag : Int) else (mag : Int))

/-- The `multipliers` table of source line 125. -/
def multiplier (c : Char) : Nat :=
  if c = 'K' then 1000 else if c = 'M' then 1000000 else 1000000000

/-- Error message type: the `str(e)` of a raised Python exception. -/
abbrev Err := String

deriving instance DecidableEq for Except

/-- The `try` body of `_convert_count_to_number` (source lines 128-134),
acting on the already stripped and uppercased characters.  `Except.error`
models an uncaught exception escaping the function: the only such paths are
`int()` applied to an infinite float (`OverflowError`), which the
`except (ValueError, IndexError)` clause does not catch — the infinity
being spelled (`"infK"`), a literal overflowing to infinity (`"1e400K"`),
or a finite double whose product with the multiplier overflows
(`"1e308K"`).  A `ValueError` (unparseable text, `int(nan)`) or
`IndexError` (`count_str[-1]` on text that strips to empty) is caught and
yields `0`. -/
def convert_core (t : List Char) : Except Err Int :=
  match t.getLast? with
  | none => Except.ok 0
  | some c =>
    if c = 'K' || c = 'M' || c = 'B' then
      match pyFloatOfChars t.dropLast with
      | none => Except.ok 0
      | some PyFloat.nan => Except.ok 0
      | some PyFloat.inf =>
          Except.error "OverflowError: cannot convert float infinity to integer"
      | some (PyFloat.finite neg m s) =>
          match floatTimesIntToInt neg m s (multiplier c) with
          | none =>
              Except.error "OverflowError: cannot convert float infinity to integer"
          | some n => Except.ok n
    else
      match pyIntOfChars t with
      | none => Except.ok 0
      | some n => Except.ok n

/-- `_convert_count_to_number` proper: the empty-string early return of
source line 122, then `count_str.strip().upper()`, then the `try` body. -/
def _convert_count_to_number (s : String) : Except Err Int :=
  if s.data.isEmpty then Except.ok 0
  else convert_core ((stripChars s.data).map upperChar)

/-- `_convert_count_to_number` as observed inside `get_profile_info`'s
`try`: there, `except Exception` catches even the `OverflowError`, so any
escape collapses to `0`. -/
def convert_caught (s : String) : Int :=
  match _convert_count_to_number s with
  | Except.ok n => n
  | Except.error _ => 0

/-- A call to an external collaborator, recorded so that "zero collaborator
calls" claims are statable. -/
inductive CallEvent
  | extract_username (url : String)
  | profile_info (username : String)
  | video_info (url : String)
  | download_audio (url : String)
  | transcribe (vid : String)
deriving DecidableEq, Repr

/-- The external collaborators of one run, as deterministic oracles.
`Except.error msg` models the collaborator raising with `str(e) = msg`.

* `extract_username` — `_extract_username_from_url` (source 105-118): pure,
  raises `ValueError` when no pattern matches;
* `navigate` — `self.driver.get(profile_url)` (source 138), which can raise
  a `WebDriverException`;
* `followers_text` — the `WebDriverWait ... .text` lookup (source 142-145),
  which can raise `TimeoutException`;
* `get_video_info` — source 151-172: its whole body sits in a
  `try/except` that returns `(0, 0, '', '')` on any failure, so the wrapper
  is total: likes, views, description, publish date;
* `download_audio` — the `yt_dlp` download + `ffmpeg` transcode of
  `_download_and_convert_audio` when no cached artifact exists
  (source 74-90), raising on failure and otherwise materialising the audio
  artifact for the video id;
* `transcribe` — `_transcribe_audio` (source 96-103), raising on failure;
* `save` — `df.to_excel` (source 271 and 282); indexed by the ordinal of
  the save call within the run. -/
structure Env where
  extract_username : String → Except Err String
  navigate : String → Except Err Unit
  followers_text : String → Except Err String
  get_video_info : String → Int × Int × String × String
  download_audio : String → Except Err Unit
  transcribe : String → Except Err String
  save : Nat → Except Err Unit

/-- `get_profile_info` (source 136-149).  The `driver.get` navigation at
line 138 stands OUTSIDE the `try`, so a navigation failure propagates; the
element wait, text read and count conversion are inside
`try ... except Exception`, so any of their failures yields `0`. -/
def get_profile_info (env : Env) (username : String) : Except Err Int :=
  match env.navigate username with
  | Except.error e => Except.error e
  | Except.ok _ =>
    match env.followers_text username with
    | Except.error _ => Except.ok 0
    | Except.ok t => Except.ok (convert_caught t)

/-- `url.split('/')[-1]` (source 68): the video id keying the audio
artifact. -/
def video_id (url : String) : String :=
  String.mk ((splitOnChar '/' url.data).getLastD [])

/-- `_download_and_convert_audio` (source 66-94) acting on the audio work
area, modelled as the set (list without duplicates) of video ids whose
artifact exists.  If the artifact already exists it is reused without any
external call; otherwise the download/transcode collaborator runs and, on
success, materialises the artifact. -/
def download_and_convert_audio (env : Env) (fs : List String) (url : String) :
    Except Err String × List String × List CallEvent :=
  let vid := video_id url
  if vid ∈ fs then (Except.ok vid, fs, [])
  else
    match env.download_audio url with
    | Except.error e => (Except.error e, fs, [CallEvent.download_audio url])
    | Except.ok _ => (Except.ok vid, vid :: fs, [CallEvent.download_audio url])

/-- The transcript step of `process_excel_data` (source 262-267): materialise
the artifact, transcribe it, and — only after a successful transcription —
delete the artifact if it exists (`os.remove` guarded by `os.path.exists`).
There is no `finally`: when `_transcribe_audio` raises, control jumps to the
row-level handler and the removal never runs. -/
def transcript_step (env : Env) (fs : List String) (url : String) :
    Except Err String × List String × List CallEvent :=
  match download_and_convert_audio env fs url with
  | (Except.error e, fs1, cs) => (Except.error e, fs1, cs)
  | (Except.ok vid, fs1, cs) =>
    match env.transcribe vid with
    | Except.error e => (Except.error e, fs1, cs ++ [CallEvent.transcribe vid])
    | Except.ok t =>
        (Except.ok t,
         (if vid ∈ fs1 then fs1.filter (fun x => x ≠ vid) else fs1),
         cs ++ [CallEvent.transcribe vid])

/-- The per-row mutable state inside the orchestrator: the row being
updated in place, the audio work area, and the collaborator calls made so
far for this row. -/
structure RS where
  row : Row
  fs : List String
  calls : List CallEvent
deriving DecidableEq, Repr

/-- Step 1 of the row `try` block (source 244-248): derive and store the
username when needed; otherwise keep the stored one. -/
def stepU (env : Env) (s : RS) : Except (RS × Err) RS :=
  if needs_username s.row then
    let cs := s.calls ++ [CallEvent.extract_username s.row.url_video]
    match env.extract_username s.row.url_video with
    | Except.error e => Except.error ({ s with calls := cs }, e)
    | Except.ok u =>
        Except.ok { s with row := { s.row with tiktok_username := some u }, calls := cs }
  else Except.ok s

/-- Step 2 (source 250-252): fetch and store the follower count when
needed.  The username passed on is the freshly derived one or the stored
one — in both cases the row's current `tiktok_username`. -/
def stepF (env : Env) (s : RS) : Except (RS × Err) RS :=
  if needs_followers s.row then
    let u := s.row.tiktok_username.getD ""
    let cs := s.calls ++ [CallEvent.profile_info u]
    match get_profile_info env u with
    | Except.error e => Except.error ({ s with calls := cs }, e)
    | Except.ok n =>
        Except.ok { s with row := { s.row with followers_count := some n }, calls := cs }
  else Except.ok s

/-- Step 3 (source 254-259): fetch the four video-metadata fields together
when the group is needed.  `get_video_info` is total (its wrapper swallows
every failure), so this step never raises. -/
def stepV (env : Env) (s : RS) : Except (RS × Err) RS :=
  if needs_video_info s.row then
    let (likes, views, description, publish_date) := env.get_video_info s.row.url_video
    Except.ok
      { s with
        row :=
          { s.row with
            video_likes := some likes
            video_views := some views
            video_description := some description
            publish_date := some publish_date }
        calls := s.calls ++ [CallEvent.video_info s.row.url_video] }
  else Except.ok s

/-- Step 4 (source 261-267): the transcript step, storing the text on
success. -/
def stepT (env : Env) (s : RS) : Except (RS × Err) RS :=
  if needs_transcription s.row then
    match transcript_step env s.fs s.row.url_video with
    | (Except.error e, fs1, cs) =>
        Except.error ({ s with fs := fs1, calls := s.calls ++ cs }, e)
    | (Except.ok t, fs1, cs) =>
        Except.ok
          { s with
            row := { s.row with transcription := some t }
            fs := fs1
            calls := s.calls ++ cs }
  else Except.ok s

/-- The body of the row-level `try` (source 243-267): the four steps in
their fixed order, stopping at the first raised exception, which carries
the partially updated state to the handler. -/
def process_row_try (env : Env) (s : RS) : Except (RS × Err) RS :=
  match stepU env s with
  | Except.error x => Except.error x
  | Except.ok s1 =>
    match stepF env s1 with
    | Except.error x => Except.error x
    | Except.ok s2 =>
      match stepV env s2 with
      | Except.error x => Except.error x
      | Except.ok s3 => stepT env s3

/-- The batch controller state: rows already processed (in order), the audio
work area, how many `to_excel` calls happened, after which row ordinals a
flush was attempted, and all collaborator calls so far. -/
structure BState where
  done : List Row
  fs : List String
  saveCount : Nat
  flushes : List Nat
  calls : List CallEvent
deriving DecidableEq, Repr

/-- One iteration of the `df.iterrows()` loop (source 229-280) on the row
snapshot `r`.  When nothing is needed the row is only logged and left
untouched.  Otherwise the `try` body runs; on success the error column is
cleared and, when the 1-based row ordinal is a multiple of 5, the dataset is
checkpointed — a save failure being caught by the SAME row-level handler,
which records it in the row's `extraction_error`.  On any caught exception
the handler stores `str(e)` in `extraction_error` and the loop continues. -/
def step_row (env : Env) (st : BState) (r : Row) : BState :=
  let i := st.done.length
  if needsAny r then
    match process_row_try env { row := r, fs := st.fs, calls := [] } with
    | Except.error (s, e) =>
        { st with
          done := st.done ++ [{ s.row with extraction_error := some e }]
          fs := s.fs
          calls := st.calls ++ s.calls }
    | Except.ok s =>
        let r' := { s.row with extraction_error := some "" }
        if (i + 1) % 5 = 0 then
          match env.save st.saveCount with
          | Except.error e =>
              { st with
                done := st.done ++ [{ r' with extraction_error := some e }]
                fs := s.fs
                saveCount := st.saveCount + 1
                flushes := st.flushes ++ [i + 1]
                calls := st.calls ++ s.calls }
          | Except.ok _ =>
              { st with
                done := st.done ++ [r']
                fs := s.fs
                saveCount := st.saveCount + 1
                flushes := st.flushes ++ [i + 1]
                calls := st.calls ++ s.calls }
        else
          { st with done := st.done ++ [r'], fs := s.fs, calls := st.calls ++ s.calls }
  else
    { st with done := st.done ++ [r] }

/-- `process_excel_data` (source 209-287) from the point where the dataset
is in memory with its eight derived columns present: iterate the rows,
then perform the final full flush (source 282), whose failure — unlike any
failure inside the loop — reaches the outer `except`, is re-raised, and so
propagates to the operator. -/
def process_excel_data (env : Env) (rows : List Row) (fs0 : List String) :
    Except Err BState :=
  let st := rows.foldl (step_row env) { done := [], fs := fs0, saveCount := 0, flushes := [], calls := [] }
  match env.save st.saveCount with
  | Except.error e => Except.error e
  | Except.ok _ =>
      Except.ok { st with saveCount := st.saveCount + 1, flushes := st.flushes ++ [rows.length] }

/-! ### Concrete fixtures used by counterexamples and witnesses. -/

/-- A row that needs only its transcript: every other group is populated. -/
def rowT (u : String) : Row :=
  { url_video := u
    tiktok_username := some "alice"
    followers_count := some 5
    video_likes := some 1
    video_views := some 2
    video_description := some "d"
    publish_date := some "2024-01-01"
    transcription := none
    extraction_error := some "" }

/-- A fully populated row (every group present), carrying a stale error from
a previous failed run. -/
def rowFullStale : Row :=
  { url_video := "a/9"
    tiktok_username := some "alice"
    followers_count := some 5
    video_likes := some 1
    video_views := some 2
    video_description := some "d"
    publish_date := some "2024-01-01"
    transcription := some "t"
    extraction_error := some "old error" }

/-- A fully populated row with a clean error column. -/
def rowFull : Row := { rowFullStale with extraction_error := some "" }

/-- A row that needs only its follower count. -/
def rowF : Row := { rowFull with followers_count := some 0 }

/-- A row with likes set but views unset (zero). -/
def rowLV : Row := { rowFull with video_views := some 0 }

/-- An environment in which every collaborator succeeds. -/
def envOk : Env :=
  { extract_username := fun _ => Except.ok "alice"
    navigate := fun _ => Except.ok ()
    followers_text := fun _ => Except.ok "10"
    get_video_info := fun _ => (1, 2, "d", "2024-01-01")
    download_audio := fun _ => Except.ok ()
    transcribe := fun v => Except.ok ("t" ++ v)
    save := fun _ => Except.ok () }

/-- Like `envOk`, but the FIRST dataset save (the row-5 checkpoint in the
runs below) raises. -/
def envSave0Fails : Env := { envOk with save := fun k => if k = 0 then Except.error "disk full" else Except.ok () }

/-- Like `envOk`, but the transcription collaborator always raises. -/
def envWhisperFails : Env := { envOk with transcribe := fun _ => Except.error "whisper crashed" }

/-- Like `envOk`, but profile navigation raises. -/
def envNavFails : Env := { envOk with navigate := fun _ => Except.error "net down" }

/-- Like `envOk`, but the followers element lookup times out. -/
def envWaitFails : Env := { envOk with followers_text := fun _ => Except.error "timeout" }

/-- Six rows, each needing only its transcript. -/
def rows6 : List Row :=
  [rowT "a/1", rowT "a/2", rowT "a/3", rowT "a/4", rowT "a/5", rowT "a/6"]

/-- Twelve rows, each needing only its transcript. -/
def rows12 : List Row :=
  [rowT "a/1", rowT "a/2", rowT "a/3", rowT "a/4", rowT "a/5", rowT "a/6",
   rowT "a/7", rowT "a/8", rowT "a/9", rowT "a/10", rowT "a/11", rowT "a/12"]

/-- Twelve rows whose fifth is already fully populated. -/
def rows12skip5 : List Row :=
  [rowT "a/1", rowT "a/2", rowT "a/3", rowT "a/4", rowFull, rowT "a/6",
   rowT "a/7", rowT "a/8", rowT "a/9", rowT "a/10", rowT "a/11", rowT "a/12"]

/-! ### Helper lemmas (shared). -/

/-- A successful `stepU` does not touch the transcription cell. -/
theorem stepU_transcription (env : Env) (s s' : RS) (h : stepU env s = Except.ok s') :
    s'.row.transcription = s.row.transcription := by
  unfold stepU at h
  split at h
  · split at h
    · exact absurd h (by simp)
    · injection h with h'; subst h'; rfl
  · injection h with h'; subst h'; rfl

/-- A successful `stepF` does not touch the transcription cell. -/
theorem stepF_transcription (env : Env) (s s' : RS) (h : stepF env s = Except.ok s') :
    s'.row.transcription = s.row.transcription := by
  unfold stepF at h
  split at h
  · dsimp only at h
    split at h
    · exact absurd h (by simp)
    · injection h with h'; subst h'; rfl
  · injection h with h'; subst h'; rfl

/-- A successful `stepV` does not touch the transcription cell. -/
theorem stepV_transcription (env : Env) (s s' : RS) (h : stepV env s = Except.ok s') :
    s'.row.transcription = s.row.transcription := by
  unfold stepV at h
  split at h
  · injection h with h'; subst h'; rfl
  · injection h with h'; subst h'; rfl

/-- A raising `stepT` carries the row through unchanged: the handler sees
exactly the fields written by the earlier steps. -/
theorem stepT_error_row (env : Env) (s s' : RS) (e : Err)
    (h : stepT env s = Except.error (s', e)) : s'.row = s.row := by
  unfold stepT at h
  split at h
  · split at h
    · injection h with h'
      rw [Prod.mk.injEq] at h'
      rw [← h'.1]
    · exact absurd h (by simp)
  · exact absurd h (by simp)

/-! ### Claim theorems. -/

/-- C8: the magnitude-suffix parser maps `"12.3K"` to `12300`, `"1M"` to
`1000000`, the empty string to `0` and `"abc"` to `0`; on these inputs it
returns rather than raises. -/
theorem claim_C8_magnitude_parsing :
    _convert_count_to_number "12.3K" = Except.ok 12300 ∧
    _convert_count_to_number "1M" = Except.ok 1000000 ∧
    _convert_count_to_number "" = Except.ok 0 ∧
    _convert_count_to_number "abc" = Except.ok 0 := by
  refine ⟨by decide, by decide, by decide, by decide⟩

/-- C2, counterexample: the transient audio artifact is NOT deleted on every
exit path of the transcript step — when transcription raises, the removal at
source 266-267 is skipped and the artifact for video id `"7"` is still in
the work area afterwards. -/
theorem claim_C2_counterexample :
    transcript_step envWhisperFails [] "a/7" =
      (Except.error "whisper crashed", ["7"],
       [CallEvent.download_audio "a/7", CallEvent.transcribe "7"]) ∧
    video_id "a/7" ∈ (transcript_step envWhisperFails [] "a/7").2.1 := by
  refine ⟨by decide, by decide⟩

/-- A successful artifact materialisation yields exactly the row's video id,
and the artifact is then present in the work area. -/
theorem download_ok_vid (env : Env) (fs : List String) (url : String)
    (v : String) (fs1 : List String) (cs1 : List CallEvent)
    (h : download_and_convert_audio env fs url = (Except.ok v, fs1, cs1)) :
    v = video_id url ∧ video_id url ∈ fs1 := by
  unfold download_and_convert_audio at h
  dsimp only at h
  by_cases hmem : video_id url ∈ fs
  · rw [if_pos hmem, Prod.mk.injEq, Prod.mk.injEq] at h
    obtain ⟨h1, h2, h3⟩ := h
    injection h1 with hv
    exact ⟨hv.symm, h2 ▸ hmem⟩
  · rw [if_neg hmem] at h
    cases hdl : env.download_audio url with
    | error e1 =>
        rw [hdl] at h
        exact absurd h (by simp)
    | ok u =>
        rw [hdl] at h
        dsimp only at h
        rw [Prod.mk.injEq, Prod.mk.injEq] at h
        obtain ⟨h1, h2, h3⟩ := h
        injection h1 with hv
        refine ⟨hv.symm, ?_⟩
        rw [← h2]
        exact List.mem_cons_self _ _

/-- A failing artifact materialisation leaves the work area unchanged and
can only happen when the artifact was absent and the download collaborator
raised. -/
theorem download_error_cond (env : Env) (fs : List String) (url : String)
    (e : Err) (fs1 : List String) (cs1 : List CallEvent)
    (h : download_and_convert_audio env fs url = (Except.error e, fs1, cs1)) :
    fs1 = fs ∧ video_id url ∉ fs ∧ env.download_audio url = Except.error e := by
  unfold download_and_convert_audio at h
  dsimp only at h
  by_cases hmem : video_id url ∈ fs
  · rw [if_pos hmem] at h
    exact absurd h (by simp)
  · rw [if_neg hmem] at h
    cases hdl : env.download_audio url with
    | error e1 =>
        rw [hdl] at h
        dsimp only at h
        rw [Prod.mk.injEq, Prod.mk.injEq] at h
        obtain ⟨h1, h2, h3⟩ := h
        injection h1 with he
        exact ⟨h2.symm, hmem, by rw [he]⟩
    | ok u =>
        rw [hdl] at h
        exact absurd h (by simp)

/-- C2, amended: the transcript step deletes the artifact only on its
success path — after a successful transcription no artifact for the row's
video id remains; after a transcription failure the artifact DOES remain in
the work area (available for reuse by a later run). -/
theorem claim_C2_amended (env : Env) (fs : List String) (url : String)
    (hd : video_id url ∈ fs ∨ env.download_audio url = Except.ok ()) :
    (∀ t fs' cs, transcript_step env fs url = (Except.ok t, fs', cs) → video_id url ∉ fs') ∧
    (∀ e fs' cs, transcript_step env fs url = (Except.error e, fs', cs) → video_id url ∈ fs') := by
  constructor
  · intro t fs' cs h
    unfold transcript_step at h
    split at h
    · exact absurd h (by simp)
    · rename_i vid fs1 cs1 heq
      split at h
      · exact absurd h (by simp)
      · obtain ⟨hv, hmem1⟩ := download_ok_vid env fs url vid fs1 cs1 heq
        subst hv
        rw [Prod.mk.injEq, Prod.mk.injEq] at h
        rw [← h.2.1, if_pos hmem1]
        simp
  · intro e fs' cs h
    unfold transcript_step at h
    split at h
    · rename_i e1 fs1 cs1 heq
      obtain ⟨h1, h2, h3⟩ := download_error_cond env fs url e1 fs1 cs1 heq
      rcases hd with hm | hok
      · exact absurd hm h2
      · rw [h3] at hok
        exact absurd hok (by simp)
    · rename_i vid fs1 cs1 heq
      split at h
      · obtain ⟨hv, hmem1⟩ := download_ok_vid env fs url vid fs1 cs1 heq
        rw [Prod.mk.injEq, Prod.mk.injEq] at h
        rw [← h.2.1]
        exact hv ▸ hmem1
      · exact absurd h (by simp)

/-- C2, witness for the amended theorem: a concrete successful run removes
the reused artifact `"123"` from the work area. -/
theorem claim_C2_amended_witness :
    (video_id "a/123" ∈ ["123"] ∨ envOk.download_audio "a/123" = Except.ok ()) ∧
    video_id "a/123" ∉ ([] : List String) :=
  ⟨Or.inl (by decide),
   (claim_C2_amended envOk ["123"] "a/123" (Or.inl (by decide))).1 "t123" []
     [CallEvent.transcribe "123"] (by decide)⟩

/-- C3, counterexample: `get_profile_info` DOES raise to its caller when the
profile-page navigation fails, because `driver.get` (source line 138) stands
outside the `try`; it does not return 0 there. -/
theorem claim_C3_counterexample :
    get_profile_info envNavFails "alice" = Except.error "net down" ∧
    get_profile_info envNavFails "alice" ≠ Except.ok 0 := by
  refine ⟨by decide, by decide⟩

/-- C3, amended: provided the initial navigation succeeds,
`get_profile_info` never raises; a failure of the element wait / text read
yields exactly 0; and in the batch a row whose followers lookup degraded to
0 this way still ends the iteration with its error column CLEARED — the
degraded fetch alone does not set `last_error`.  A navigation failure,
however, propagates to the row-level handler. -/
theorem claim_C3_amended (env : Env) (u : String) (hnav : env.navigate u = Except.ok ()) :
    (∃ n, get_profile_info env u = Except.ok n) ∧
    (∀ e, env.followers_text u = Except.error e → get_profile_info env u = Except.ok 0) ∧
    (∀ (st : BState) (r : Row) (e : Err),
        needs_username r = false → needs_followers r = true →
        needs_video_info r = false → needs_transcription r = false →
        r.tiktok_username.getD "" = u → env.followers_text u = Except.error e →
        (st.done.length + 1) % 5 ≠ 0 →
        step_row env st r =
          { st with
            done := st.done ++ [{ r with followers_count := some 0, extraction_error := some "" }]
            calls := st.calls ++ [CallEvent.profile_info u] }) := by
  have hprofile : ∀ e, env.followers_text u = Except.error e →
      get_profile_info env u = Except.ok 0 := by
    intro e he
    unfold get_profile_info
    rw [hnav, he]
  refine ⟨?_, hprofile, ?_⟩
  · unfold get_profile_info
    rw [hnav]
    cases hf : env.followers_text u with
    | error e => exact ⟨0, rfl⟩
    | ok t => exact ⟨convert_caught t, rfl⟩
  · intro st r e hu hf hv ht huser he hmod
    have hany : needsAny r = true := by
      unfold needsAny
      rw [hf]
      simp
    have hu' : ¬(needs_username r = true) := by simp [hu]
    have hgetu : get_profile_info env u = Except.ok 0 := hprofile e he
    have h1 : stepU env { row := r, fs := st.fs, calls := [] } =
        Except.ok { row := r, fs := st.fs, calls := [] } := by
      unfold stepU
      dsimp only
      rw [if_neg hu']
    have h2 : stepF env { row := r, fs := st.fs, calls := [] } =
        Except.ok
          { row := { r with followers_count := some 0 }
            fs := st.fs
            calls := [CallEvent.profile_info u] } := by
      unfold stepF
      dsimp only
      rw [if_pos hf, huser, hgetu]
      rfl
    have hvC : needs_video_info ({ r with followers_count := some 0 } : Row) = false := hv
    have htC : needs_transcription ({ r with followers_count := some 0 } : Row) = false := ht
    have h3 : stepV env
          { row := { r with followers_count := some 0 }
            fs := st.fs
            calls := [CallEvent.profile_info u] } =
        Except.ok
          { row := { r with followers_count := some 0 }
            fs := st.fs
            calls := [CallEvent.profile_info u] } := by
      unfold stepV
      dsimp only
      rw [if_neg (by simp [hvC])]
    have h4 : stepT env
          { row := { r with followers_count := some 0 }
            fs := st.fs
            calls := [CallEvent.profile_info u] } =
        Except.ok
          { row := { r with followers_count := some 0 }
            fs := st.fs
            calls := [CallEvent.profile_info u] } := by
      unfold stepT
      dsimp only
      rw [if_neg (by simp [htC])]
    have htry :
        process_row_try env { row := r, fs := st.fs, calls := [] } =
          Except.ok
            { row := { r with followers_count := some 0 }
              fs := st.fs
              calls := [CallEvent.profile_info u] } := by
      unfold process_row_try
      rw [h1]
      dsimp only
      rw [h2]
      dsimp only
      rw [h3]
      dsimp only
      rw [h4]
    unfold step_row
    rw [if_pos hany, htry]
    dsimp only
    rw [if_neg hmod]

/-- C3, witness for the amended theorem: with navigation fine but the
followers element lookup timing out, the concrete row ends with followers 0
and a cleared error column. -/
theorem claim_C3_amended_witness :
    envWaitFails.navigate "alice" = Except.ok () ∧
    step_row envWaitFails { done := [], fs := [], saveCount := 0, flushes := [], calls := [] } rowF =
      { done := [{ rowF with followers_count := some 0, extraction_error := some "" }]
        fs := []
        saveCount := 0
        flushes := []
        calls := [CallEvent.profile_info "alice"] } :=
  ⟨rfl,
   (claim_C3_amended envWaitFails "alice" rfl).2.2
     { done := [], fs := [], saveCount := 0, flushes := [], calls := [] } rowF "timeout"
     (by decide) (by decide) (by decide) (by decide) rfl rfl (by decide)⟩

/-- C5: when the transcript step raises on a row whose earlier steps ran
without raising, the row-level handler stores the raised message in the
row's error column, every field written by the earlier steps keeps its
already-written value (the handler sees exactly the row the earlier steps
produced — no rollback), the transcription cell itself keeps its loaded
value, and the batch loop continues with the next row. -/
theorem claim_C5_transcript_failure (env : Env) (st : BState) (r : Row)
    (s1 s2 s3 s4 : RS) (e : Err)
    (hn : needsAny r = true)
    (h1 : stepU env { row := r, fs := st.fs, calls := [] } = Except.ok s1)
    (h2 : stepF env s1 = Except.ok s2)
    (h3 : stepV env s2 = Except.ok s3)
    (h4 : stepT env s3 = Except.error (s4, e)) :
    s4.row = s3.row ∧
    s3.row.transcription = r.transcription ∧
    step_row env st r =
      { st with
        done := st.done ++ [{ s3.row with extraction_error := some e }]
        fs := s4.fs
        calls := st.calls ++ s4.calls } ∧
    (∀ rest : List Row,
        (r :: rest).foldl (step_row env) st = rest.foldl (step_row env) (step_row env st r)) := by
  have hrow : s4.row = s3.row := stepT_error_row env s3 s4 e h4
  have htr : s3.row.transcription = r.transcription := by
    rw [stepV_transcription env s2 s3 h3, stepF_transcription env s1 s2 h2,
      stepU_transcription env { row := r, fs := st.fs, calls := [] } s1 h1]
  have htry : process_row_try env { row := r, fs := st.fs, calls := [] } =
      Except.error (s4, e) := by
    unfold process_row_try
    rw [h1]
    dsimp only
    rw [h2]
    dsimp only
    rw [h3]
    dsimp only
    rw [h4]
  refine ⟨hrow, htr, ?_, fun rest => List.foldl_cons _ _⟩
  unfold step_row
  rw [if_pos hn, htry]
  dsimp only
  rw [hrow]

/-- C5, witness: a concrete row whose transcript collaborator crashes ends
with `extraction_error = "whisper crashed"`, its other fields intact, and
the artifact left behind. -/
theorem claim_C5_witness :
    needsAny (rowT "a/5") = true ∧
    step_row envWhisperFails { done := [], fs := [], saveCount := 0, flushes := [], calls := [] }
        (rowT "a/5") =
      { done := [{ rowT "a/5" with extraction_error := some "whisper crashed" }]
        fs := ["5"]
        saveCount := 0
        flushes := []
        calls := [CallEvent.download_audio "a/5", CallEvent.transcribe "5"] } :=
  ⟨by decide,
   (claim_C5_transcript_failure envWhisperFails
     { done := [], fs := [], saveCount := 0, flushes := [], calls := [] } (rowT "a/5")
     { row := rowT "a/5", fs := [], calls := [] }
     { row := rowT "a/5", fs := [], calls := [] }
     { row := rowT "a/5", fs := [], calls := [] }
     { row := rowT "a/5", fs := ["5"],
       calls := [CallEvent.download_audio "a/5", CallEvent.transcribe "5"] }
     "whisper crashed" (by decide) (by decide) (by decide) (by decide) (by decide)).2.2.1⟩

/-- C6: the resolver's needed set includes the video-metadata group iff at
least one of its four sub-fields is empty/zero or missing, and whenever the
group is needed the orchestrator re-fetches and writes all four sub-fields
together from one `get_video_info` call. -/
theorem claim_C6_video_metadata_group (r : Row) (env : Env) (s : RS)
    (h : needs_video_info s.row = true) :
    (FieldGroup.video_metadata ∈ needed r ↔
      (intMissing r.video_likes = true ∨ intMissing r.video_views = true ∨
       strMissing r.video_description = true ∨ strMissing r.publish_date = true)) ∧
    stepV env s =
      Except.ok
        { s with
          row :=
            { s.row with
              video_likes := some (env.get_video_info s.row.url_video).1
              video_views := some (env.get_video_info s.row.url_video).2.1
              video_description := some (env.get_video_info s.row.url_video).2.2.1
              publish_date := some (env.get_video_info s.row.url_video).2.2.2 }
          calls := s.calls ++ [CallEvent.video_info s.row.url_video] } := by
  constructor
  · have hmem : FieldGroup.video_metadata ∈ needed r ↔ needs_video_info r = true := by
      unfold needed
      cases hu : needs_username r <;> cases hf : needs_followers r <;>
        cases hv : needs_video_info r <;> cases ht : needs_transcription r <;> simp
    rw [hmem]
    unfold needs_video_info
    simp only [Bool.or_eq_true]
    tauto
  · unfold stepV
    rw [if_pos h]

/-- C6, witness: a row with likes set but views unset needs the whole
video-metadata group, and processing it re-fetches all four sub-fields. -/
theorem claim_C6_witness :
    needs_video_info rowLV = true ∧
    FieldGroup.video_metadata ∈ needed rowLV ∧
    stepV envOk { row := rowLV, fs := [], calls := [] } =
      Except.ok
        { row :=
            { rowLV with
              video_likes := some 1
              video_views := some 2
              video_description := some "d"
              publish_date := some "2024-01-01" }
          fs := []
          calls := [CallEvent.video_info "a/9"] } :=
  ⟨by decide,
   (claim_C6_video_metadata_group rowLV envOk { row := rowLV, fs := [], calls := [] }
       (by decide)).1.mpr (Or.inr (Or.inl (by decide))),
   (claim_C6_video_metadata_group rowLV envOk { row := rowLV, fs := [], calls := [] }
       (by decide)).2⟩

/-- C7: when every field group of a row is fully populated the resolver's
needed set is empty, the controller leaves the row untouched (skip branch,
no error), performs zero collaborator calls for it, and running the batch a
second time on the resulting (unchanged) row again performs zero
collaborator calls. -/
theorem claim_C7_idempotent_skip (env : Env) (fs0 : List String) (r : Row)
    (h : needsAny r = false) (hs : env.save 0 = Except.ok ()) :
    needed r = [] ∧
    (∀ st : BState, step_row env st r = { st with done := st.done ++ [r] }) ∧
    process_excel_data env [r] fs0 =
      Except.ok { done := [r], fs := fs0, saveCount := 1, flushes := [1], calls := [] } ∧
    (∀ st1, process_excel_data env [r] fs0 = Except.ok st1 →
        process_excel_data env st1.done st1.fs =
          Except.ok { done := [r], fs := fs0, saveCount := 1, flushes := [1], calls := [] }) := by
  have hu : needs_username r = false := by
    unfold needsAny at h
    cases hx : needs_username r
    · rfl
    · rw [hx] at h; simp at h
  have hskip : ∀ st : BState, step_row env st r = { st with done := st.done ++ [r] } := by
    intro st
    unfold step_row
    rw [if_neg (by simp [h])]
  have hrun : process_excel_data env [r] fs0 =
      Except.ok { done := [r], fs := fs0, saveCount := 1, flushes := [1], calls := [] } := by
    unfold process_excel_data
    rw [List.foldl_cons, List.foldl_nil,
      hskip { done := [], fs := fs0, saveCount := 0, flushes := [], calls := [] }]
    dsimp only
    rw [hs]
    rfl
  refine ⟨?_, hskip, hrun, ?_⟩
  · unfold needsAny at h
    simp only [Bool.or_eq_false_iff] at h
    unfold needed
    rw [h.1.1.1, h.1.1.2, h.1.2, h.2]
    rfl
  · intro st1 h1
    rw [hrun] at h1
    injection h1 with h1'
    rw [← h1']
    exact hrun

/-- C7, witness: a concrete fully populated row is skipped with zero
collaborator calls by a full batch run. -/
theorem claim_C7_witness :
    needsAny rowFull = false ∧
    process_excel_data envOk [rowFull] [] =
      Except.ok { done := [rowFull], fs := [], saveCount := 1, flushes := [1], calls := [] } :=
  ⟨by decide, (claim_C7_idempotent_skip envOk [] rowFull (by decide) rfl).2.2.1⟩

/-- C9: on the skip path the controller writes nothing at all to the row —
a fully populated row is carried through a batch run exactly as loaded, so
a stale non-empty `extraction_error` left by a previous failed run
persists (the error-clearing write runs only on the processed branch). -/
theorem claim_C9_skip_frame (env : Env) (fs0 : List String) (r : Row) (err : String)
    (h : needsAny r = false) (he : r.extraction_error = some err)
    (hs : env.save 0 = Except.ok ()) :
    ∃ st : BState,
      process_excel_data env [r] fs0 = Except.ok st ∧
      st.done = [r] ∧
      st.done.map Row.extraction_error = [some err] := by
  refine ⟨{ done := [r], fs := fs0, saveCount := 1, flushes := [1], calls := [] }, ?_, rfl, ?_⟩
  · unfold process_excel_data
    rw [List.foldl_cons, List.foldl_nil]
    unfold step_row
    rw [if_neg (by simp [h])]
    dsimp only
    rw [hs]
    rfl
  · simp [he]

/-- C9, witness: the concrete stale row keeps its old error text across a
run that skips it. -/
theorem claim_C9_witness :
    needsAny rowFullStale = false ∧
    ∃ st : BState,
      process_excel_data envOk [rowFullStale] [] = Except.ok st ∧
      st.done = [rowFullStale] ∧
      st.done.map Row.extraction_error = [some "old error"] :=
  ⟨by decide, claim_C9_skip_frame envOk [] rowFullStale "old error" (by decide) rfl rfl⟩

/-- C1, counterexample: a failure of the mid-run checkpoint save is NOT
fatal to the batch.  With the first `to_excel` call raising "disk full" at
the row-5 checkpoint, `process_excel_data` still returns normally: the save
error is recorded as row 5's `extraction_error` (the checkpoint sits inside
the per-row `try`), and row 6 is still processed. -/
theorem claim_C1_counterexample :
    (process_excel_data envSave0Fails rows6 []).map
        (fun st => (st.done.map Row.extraction_error, st.done.map Row.transcription, st.flushes)) =
      Except.ok
        ([some "", some "", some "", some "", some "disk full", some ""],
         [some "t1", some "t2", some "t3", some "t4", some "t5", some "t6"],
         [5, 6]) ∧
    (process_excel_data envSave0Fails rows6 []) ≠ Except.error "disk full" := by
  refine ⟨by decide, by decide⟩

/-- C1, amended: a save failure at an every-5th-row checkpoint is caught by
the row-level handler — it is recorded in the current row's
`extraction_error` and the batch continues — whereas `process_excel_data`
terminates with a store error exactly when the FINAL dataset save (after the
loop) raises; row-level errors never abort the batch. -/
theorem claim_C1_amended (env : Env) (st : BState) (r : Row) (s : RS) (e : Err)
    (hn : needsAny r = true)
    (hp : process_row_try env { row := r, fs := st.fs, calls := [] } = Except.ok s)
    (hmod : (st.done.length + 1) % 5 = 0)
    (hsave : env.save st.saveCount = Except.error e) :
    step_row env st r =
      { st with
        done := st.done ++ [{ s.row with extraction_error := some e }]
        fs := s.fs
        saveCount := st.saveCount + 1
        flushes := st.flushes ++ [st.done.length + 1]
        calls := st.calls ++ s.calls } ∧
    (∀ (env2 : Env) (rows : List Row) (fs0 : List String) (e2 : Err),
        process_excel_data env2 rows fs0 = Except.error e2 ↔
          env2.save
              (rows.foldl (step_row env2)
                { done := [], fs := fs0, saveCount := 0, flushes := [], calls := [] }).saveCount =
            Except.error e2) := by
  constructor
  · unfold step_row
    rw [if_pos hn, hp]
    dsimp only
    rw [if_pos hmod, hsave]
  · intro env2 rows fs0 e2
    unfold process_excel_data
    dsimp only
    cases hsv : env2.save
        (rows.foldl (step_row env2)
          { done := [], fs := fs0, saveCount := 0, flushes := [], calls := [] }).saveCount with
    | error e' =>
        dsimp only
        simp
    | ok u =>
        dsimp only
        simp

/-- C1, witness for the amended theorem: the concrete row-5 checkpoint
failure is absorbed into row 5's error column and the loop state moves on. -/
theorem claim_C1_amended_witness :
    needsAny (rowT "a/5") = true ∧
    step_row envSave0Fails
        { done := [rowFull, rowFull, rowFull, rowFull], fs := [], saveCount := 0,
          flushes := [], calls := [] } (rowT "a/5") =
      { done :=
          [rowFull, rowFull, rowFull, rowFull] ++
            [{ { rowT "a/5" with transcription := some "t5" } with
                extraction_error := some "disk full" }]
        fs := []
        saveCount := 1
        flushes := [5]
        calls := [CallEvent.download_audio "a/5", CallEvent.transcribe "5"] } :=
  ⟨by decide,
   (claim_C1_amended envSave0Fails
     { done := [rowFull, rowFull, rowFull, rowFull], fs := [], saveCount := 0,
       flushes := [], calls := [] } (rowT "a/5")
     { row := { rowT "a/5" with transcription := some "t5" }
       fs := []
       calls := [CallEvent.download_audio "a/5", CallEvent.transcribe "5"] }
     "disk full" (by decide) (by decide) (by decide) (by decide)).1⟩

/-- C4, counterexample: the checkpoint is NOT taken "regardless of each
row's outcome" — in a 12-row dataset whose fifth row is already fully
populated (skipped), the row-5 checkpoint never happens, so only 2 flush
operations occur (after rows 10 and 12), not the 3 the claim asserts. -/
theorem claim_C4_counterexample :
    (process_excel_data envOk rows12skip5 []).map (fun st => st.flushes) = Except.ok [10, 12] ∧
    (process_excel_data envOk rows12skip5 []).map (fun st => st.flushes) ≠
      Except.ok [5, 10, 12] := by
  refine ⟨by decide, by decide⟩

/-- C4, amended: the controller flushes the dataset after every 5th row
PROVIDED that row was processed and its iteration raised nothing, and once
more after the final row; in a 12-row dataset where every row is processed
without error, exactly 3 flush operations occur — after rows 5, 10 and
12. -/
theorem claim_C4_amended :
    (process_excel_data envOk rows12 []).map (fun st => st.flushes) = Except.ok [5, 10, 12] ∧
    (process_excel_data envOk rows12 []).map (fun st => st.flushes.length) = Except.ok 3 := by
  refine ⟨by decide, by decide⟩
